import Mathlib

/-
Shallow embedding of the toolbox UI module (src/toolbox/ui.py) of the
Text-to-Speech-Synthesis-Using-Neural-Network-Based-Tacotron2-and-SV2TTS
repository, together with theorems settling the behavioural claims about
the log ring buffer, the utterance history, the one-shot UMAP flag, the
browser cascade, the model population and the audio export.

Strings manipulated by the Python code are embedded as lists of
characters, so that Python slicing translates to List.take and List.drop.
Mutable Qt widgets are embedded as record fields of an explicit state
record that every operation transforms.
-/

namespace UI

/-- Class attribute UI.min_umap_points. -/
def min_umap_points : Nat := 4

/-- Class attribute UI.max_log_lines. -/
def max_log_lines : Nat := 5

/-- Class attribute UI.max_log_width. -/
def max_log_width : Nat := 100

/-- Class attribute UI.max_saved_utterances. -/
def max_saved_utterances : Nat := 20

/-- The mode argument of UI.log. -/
inductive LogMode where
  | newline
  | append
  | overwrite
deriving DecidableEq

/-- One append to self.logs immediately followed by the overflow check
`if len(self.logs) > self.max_log_lines: del self.logs[0]`. -/
def push_trim (logs : List (List Char)) (e : List Char) : List (List Char) :=
  let lgs := logs ++ [e]
  if max_log_lines < lgs.length then lgs.tail else lgs

/-- The `mode == "newline"` branch of UI.log: a line longer than
max_log_width characters is cut into consecutive slices
`line[l*W : (l+1)*W]`, each append being followed by the overflow check,
and finally the slice `line[-res-1:]` is appended, `res` being the length
of the remainder; a short line is appended as is. -/
def lognewline (logs : List (List Char)) (line : List Char) : List (List Char) :=
  if max_log_width < line.length then
    let num_lines := line.length / max_log_width
    let res := line.length - (line.length / max_log_width) * max_log_width
    let lgs := (List.range num_lines).foldl
      (fun lgs l => push_trim lgs ((line.drop (l * max_log_width)).take max_log_width)) logs
    push_trim lgs (line.drop (line.length - (res + 1)))
  else
    push_trim logs line

/-- UI.log restricted to its effect on self.logs. The `append` and
`overwrite` modes index `self.logs[-1]`, which raises IndexError on an
empty log buffer: this is embedded as `none`. -/
def log (logs : List (List Char)) (line : List Char) (mode : LogMode) :
    Option (List (List Char)) :=
  match mode with
  | .newline => some (lognewline logs line)
  | .append =>
    match logs.getLast? with
    | none => none
    | some last => some (logs.set (logs.length - 1) (last ++ line))
  | .overwrite =>
    match logs.getLast? with
    | none => none
    | some _ => some (logs.set (logs.length - 1) line)

/-- The list of buffer entries appended by a `newline` call on a line
longer than max_log_width, before any overflow trimming. -/
def wrapped_entries (line : List Char) : List (List Char) :=
  let num_lines := line.length / max_log_width
  let res := line.length - (line.length / max_log_width) * max_log_width
  ((List.range num_lines).map
    (fun l => (line.drop (l * max_log_width)).take max_log_width))
    ++ [line.drop (line.length - (res + 1))]

/-- A Qt combo box as used by the UI: an ordered list of items, each a
display text possibly joined with a data payload, a current index and a
disabled flag. `itemData` on an out-of-range index yields an invalid
variant, embedded as `none`. -/
structure ComboBox (α : Type) where
  items : List (String × Option α)
  currentIndex : Nat
  disabled : Bool
deriving DecidableEq

def ComboBox.itemData {α : Type} (b : ComboBox α) (i : Nat) : Option α :=
  (b.items[i]?).bind Prod.snd

def ComboBox.currentText {α : Type} (b : ComboBox α) : String :=
  ((b.items[b.currentIndex]?).map Prod.fst).getD ""

/-- Modelled from the spec: the repository file toolbox/utterance.py that
defines the Utterance record is not under src; per the spec an utterance
is identified by a name and carries a speaker label, a spectrogram
matrix, a speaker-embedding vector and an optional emotion-embedding
vector. The spectrogram and embedding payload types are parameters. -/
structure Utterance (S E : Type) where
  name : String
  speaker_name : String
  spec : S
  speaker_embed : E
  emotion_embed : Option E
deriving DecidableEq

/-- The whole mutable widget and session state of the UI object that the
embedded operations read or write. -/
structure UIState (S E : Type) where
  logs : List (List Char)
  umap_hot : Bool
  utterance_history : ComboBox (Utterance S E)
  dataset_box : ComboBox Unit
  speaker_box : ComboBox Unit
  utterance_box : ComboBox Unit
  speaker_encoder_box : ComboBox (List String)
  emotion_encoder_box : ComboBox (List String)
  synthesizer_box : ComboBox (List String)
  vocoder_box : ComboBox (List String)
  browser_load_button_disabled : Bool
  random_utterance_button_disabled : Bool
  random_speaker_button_disabled : Bool
  random_dataset_button_disabled : Bool
  auto_next_checkbox_disabled : Bool
  play_button_disabled : Bool
  generate_button_disabled : Bool
  synthesize_button_disabled : Bool
  vocode_button_disabled : Bool
  replay_wav_button_disabled : Bool
  export_wav_button_disabled : Bool
  record_button_disabled : Bool
deriving DecidableEq

variable {S E : Type}

/-- Property UI.selected_utterance: the data joined to the current item
of the utterance history box. -/
def selected_utterance (st : UIState S E) : Option (Utterance S E) :=
  st.utterance_history.itemData st.utterance_history.currentIndex

/-- UI.register_utterance: insert the utterance at index 0 with its name
as display text, select index 0, drop the item at index
max_saved_utterances when the box has overflowed, and enable the play,
generate and synthesize buttons. -/
def register_utterance (st : UIState S E) (utterance : Utterance S E) : UIState S E :=
  let h := st.utterance_history
  let h := { h with items := (utterance.name, some utterance) :: h.items, currentIndex := 0 }
  let h := if max_saved_utterances < h.items.length
    then { h with items := h.items.eraseIdx max_saved_utterances }
    else h
  { st with
    utterance_history := h
    play_button_disabled := false
    generate_button_disabled := false
    synthesize_button_disabled := false }

/-- UI.repopulate_box: reset a box to the given items, select index 0 or
a random index when the list is non-empty, and disable the box exactly
when the list is empty. The random index is supplied by the oracle `k`,
reduced modulo the number of items. -/
def repopulate_box {α : Type} (box : ComboBox α) (items : List (String × Option α))
    (random : Bool) (k : Nat) : ComboBox α :=
  { box with
    items := items
    currentIndex := (if 0 < items.length then (if random then k % items.length else 0)
      else box.currentIndex)
    disabled := items.isEmpty }

/-- The message logged the first time projections are drawn. -/
def first_time_msg : String :=
  "Drawing UMAP projections for the first time, this will take a few seconds."

/-- What one projection axis displays after draw_umap_projections: either
the add-more-points text or one scatter point per zipped projection. -/
inductive AxisRender where
  | add_points_msg (missing : Nat)
  | scatter (points : Nat)
deriving DecidableEq

/-- One of the two identical blocks of UI.draw_umap_projections: with
fewer than min_umap_points utterances the add-more-points text is drawn;
otherwise the first-time message is logged and umap_hot set on a cold
state, then the reducer is applied to the embeds and one point is
scattered per element of the zip of the projections with the per-utterance
colors and markers. The returned Bool tells whether the first-time message
was logged by this block. -/
def draw_umap_block {α P : Type} (st : UIState S E) (utterances : List (Utterance S E))
    (embeds : List α) (reducer : List α → List P) :
    UIState S E × AxisRender × Bool :=
  if utterances.length < min_umap_points then
    (st, AxisRender.add_points_msg (min_umap_points - utterances.length), false)
  else
    let stE :=
      if st.umap_hot = false then
        ({ st with logs := lognewline st.logs first_time_msg.data, umap_hot := true }, true)
      else (st, false)
    (stE.1, AxisRender.scatter (min (reducer embeds).length utterances.length), stE.2)

/-- UI.draw_umap_projections: the speaker-embedding block followed by the
emotion-embedding block, each with its own external reducer. Returns the
renders of the two axes and how many times the first-time message was
logged by the call. -/
def draw_umap_projections {P Q : Type} (st : UIState S E)
    (utterances : List (Utterance S E))
    (reducer1 : List E → List P) (reducer2 : List (Option E) → List Q) :
    UIState S E × (AxisRender × AxisRender) × Nat :=
  let b1 := draw_umap_block st utterances
    (utterances.map (fun u => u.speaker_embed)) reducer1
  let b2 := draw_umap_block b1.1 utterances
    (utterances.map (fun u => u.emotion_embed)) reducer2
  (b2.1, (b1.2.1, b2.2.1), (if b1.2.2 then 1 else 0) + (if b2.2.2 then 1 else 0))

/-- The tail of UI.reset_interface: the loop logging max_log_lines empty
lines. -/
def log_blank_lines : Nat → UIState S E → UIState S E
  | 0, st => st
  | n + 1, st => log_blank_lines n { st with logs := lognewline st.logs [] }

/-- UI.reset_interface: clears the plots (drawing a None generated
spectrogram disables the vocode button), redraws the projections on the
empty utterance set, disables the action buttons and logs max_log_lines
empty lines. The Nat is the number of first-time messages logged by the
inner draw_umap_projections call. -/
def reset_interface (st : UIState S E) : UIState S E × Nat :=
  let st := { st with vocode_button_disabled := true }
  let b := draw_umap_projections st ([] : List (Utterance S E))
    (fun _ => ([] : List PUnit)) (fun _ => ([] : List PUnit))
  let st := { b.1 with
    play_button_disabled := true
    generate_button_disabled := true
    synthesize_button_disabled := true
    vocode_button_disabled := true
    replay_wav_button_disabled := true
    export_wav_button_disabled := true }
  (log_blank_lines max_log_lines st, b.2.2)

/-- The filesystem seen through the globbing in UI.populate_browser: which
recognized dataset directories exist under the root, the speaker
directories of a dataset, and the audio files of a speaker. -/
structure Filesystem where
  dataset_exists : String → Bool
  speakers_of : String → List String
  utterances_of : String → String → List String

/-- The `level <= 1` stage of UI.populate_browser: repopulate the speaker
box from the currently selected dataset. -/
def populate_speakers (st : UIState S E) (fs : Filesystem) (random : Bool)
    (k : Nat) : UIState S E :=
  { st with speaker_box := (repopulate_box st.speaker_box
      ((fs.speakers_of st.dataset_box.currentText).map (fun s => (s, none))) random k) }

/-- The `level <= 2` stage of UI.populate_browser: repopulate the
utterance box from the currently selected dataset and speaker. -/
def populate_utterances_box (st : UIState S E) (fs : Filesystem) (random : Bool)
    (k : Nat) : UIState S E :=
  { st with utterance_box := (repopulate_box st.utterance_box
      ((fs.utterances_of st.dataset_box.currentText st.speaker_box.currentText).map
        (fun s => (s, none))) random k) }

/-- The widget disabling block of the missing-datasets branch of
UI.populate_browser. -/
def disable_browser (st : UIState S E) : UIState S E :=
  { st with
    random_utterance_button_disabled := true
    random_speaker_button_disabled := true
    random_dataset_button_disabled := true
    utterance_box := { st.utterance_box with disabled := true }
    speaker_box := { st.speaker_box with disabled := true }
    dataset_box := { st.dataset_box with disabled := true }
    browser_load_button_disabled := true
    auto_next_checkbox_disabled := true }

/-- The warning logged when no datasets are available. -/
def no_datasets_msg (datasets_root : Option String) : String :=
  match datasets_root with
  | none => "Warning: you did not pass a root directory for datasets as argument"
  | some root => "Warning: you do not have any of the recognized datasets in " ++ root

/-- UI.populate_browser. With level <= 0 the dataset box is repopulated
from the recognized datasets that exist under the root, unless the root
is missing or no dataset exists, in which case a warning is logged, the
browser widgets are disabled and the method returns early; the run then
falls through the speaker and utterance stages. With level >= 1 and a
missing root the method raises (None.joinpath), embedded as `none`,
before mutating anything. -/
def populate_browser (st : UIState S E) (fs : Filesystem)
    (datasets_root : Option String) (recognized_datasets : List String)
    (level : Int) (random : Bool) (k1 k2 k3 : Nat) : Option (UIState S E) :=
  if level ≤ 0 then
    let datasets := recognized_datasets.filter fs.dataset_exists
    let st1 := if datasets_root.isSome
      then { st with browser_load_button_disabled := datasets.isEmpty }
      else st
    if datasets_root.isNone || datasets.isEmpty then
      some (disable_browser
        { st1 with logs := lognewline st1.logs (no_datasets_msg datasets_root).data })
    else
      let st2 := { st1 with dataset_box := (repopulate_box st1.dataset_box
        (datasets.map (fun d => (d, none))) random k1) }
      some (populate_utterances_box (populate_speakers st2 fs random k2) fs random k3)
  else if datasets_root.isNone then
    none
  else if level ≤ 1 then
    some (populate_utterances_box (populate_speakers st fs random k2) fs random k3)
  else if level ≤ 2 then
    some (populate_utterances_box st fs random k3)
  else
    some st

/-- `f.parent.name` on a path given as its components. -/
def parent_name (f : List String) : String := f.dropLast.getLast?.getD ""

/-- `f.parent.parent.name` on a path given as its components. -/
def parent_parent_name (f : List String) : String :=
  f.dropLast.dropLast.getLast?.getD ""

/-- UI.populate_models, the glob results being supplied as lists of paths.
A raised exception is embedded as `some message` in the second component,
the first component being the state as mutated up to the raise. The
vocoder box gets the globbed vocoder models followed by the Griffin-Lim
entry whose data is None. -/
def populate_models (st : UIState S E) (models_dir : String)
    (speaker_encoder_fpaths emotion_encoder_fpaths synthesizer_fpaths
      vocoder_fpaths : List (List String)) : UIState S E × Option String :=
  if speaker_encoder_fpaths.length = 0 then
    (st, some ("No speaker encoder models found in " ++ models_dir))
  else
    let st := { st with speaker_encoder_box := (repopulate_box st.speaker_encoder_box
      (speaker_encoder_fpaths.map (fun f => (parent_name f, some f))) false 0) }
    if emotion_encoder_fpaths.length = 0 then
      (st, some ("No emotion encoder models found in " ++ models_dir))
    else
      let st := { st with emotion_encoder_box := (repopulate_box st.emotion_encoder_box
        (emotion_encoder_fpaths.map (fun f => (parent_parent_name f, some f))) false 0) }
      if synthesizer_fpaths.length = 0 then
        (st, some ("No synthesizer models found in " ++ models_dir))
      else
        let st := { st with synthesizer_box := (repopulate_box st.synthesizer_box
          (synthesizer_fpaths.map (fun f => (parent_name f, some f))) false 0) }
        let vocoder_items := vocoder_fpaths.map (fun f => (parent_name f, some f))
          ++ [("Griffin-Lim", (none : Option (List String)))]
        ({ st with vocoder_box := repopulate_box st.vocoder_box vocoder_items false 0 },
          none)

/-- The name of the last path component, as pathlib computes it: the last
non-empty part of the path split on the separator. -/
def path_name (p : String) : List Char :=
  (((p.data.splitOn '/').filter (fun s => !s.isEmpty)).getLast?).getD []

/-- The index of the last dot of a component, as str.rfind returns it. -/
def rfind_dot (cs : List Char) : Option Nat :=
  match cs.reverse.findIdx? (fun c => c == '.') with
  | none => none
  | some j => some (cs.length - 1 - j)

/-- `Path(p).suffix`: the part of the name from its last dot on, empty
when the name has no dot, starts with its only dot, or ends with it. -/
def path_suffix (p : String) : String :=
  let cs := path_name p
  match rfind_dot cs with
  | none => ""
  | some i => if 0 < i ∧ i < cs.length - 1 then String.mk (cs.drop i) else ""

/-- UI.save_audio_file, the path returned by the file dialog being
supplied as `dialog_fpath`, the empty string meaning a cancelled dialog.
The second component is the write performed, if any: the target path and
the samples handed to the sound library. -/
def save_audio_file {W : Type} (st : UIState S E) (dialog_fpath : String) (wav : W) :
    UIState S E × Option (String × W) :=
  if dialog_fpath = "" then (st, none)
  else
    let fpath := if path_suffix dialog_fpath = "" then dialog_fpath ++ ".wav"
      else dialog_fpath
    (st, some (fpath, wav))

/-- UI.play restricted to its effect on the modelled state: on a playback
error two messages are logged. -/
def play (st : UIState S E) (ok : Bool) : UIState S E :=
  if ok then st
  else { st with logs := (lognewline (lognewline st.logs
    "Error in audio playback. Try selecting a different audio output device.".data)
    "Your device must be connected before you start the toolbox.".data) }

/-- UI.record_one restricted to its effect on the modelled state. -/
def record_one (st : UIState S E) (duration : Nat) (ok : Bool) : UIState S E :=
  let st := { st with
    record_button_disabled := true
    logs := (lognewline st.logs
      ("Recording " ++ toString duration ++ " seconds of audio").data) }
  if ok then
    { st with
      logs := lognewline st.logs "Done recording.".data
      record_button_disabled := false }
  else
    { st with logs := (lognewline (lognewline st.logs
      "Could not record anything. Is your recording device enabled?".data)
      "Your device must be connected before you start the toolbox.".data) }

/-- UI.setup_audio_devices restricted to its effect on the modelled
state: a message is logged when no input or no output device is found. -/
def setup_audio_devices (st : UIState S E) (input_devices output_devices : List String) :
    UIState S E :=
  let st := if input_devices.length = 0
    then { st with logs := (lognewline st.logs
      "No audio input device detected. Recording may not work.".data) }
    else st
  if output_devices.length = 0
    then { st with logs := (lognewline st.logs
      "No supported output audio devices were found! Audio output may not work.".data) }
    else st

/-- A fresh combo box. -/
def blank_box {α : Type} : ComboBox α := { items := [], currentIndex := 0, disabled := false }

/-- The widget state built by UI.init before reset_interface runs: empty
boxes, empty log list, umap_hot False, everything enabled. -/
def blank_state : UIState S E :=
  { logs := []
    umap_hot := false
    utterance_history := blank_box
    dataset_box := blank_box
    speaker_box := blank_box
    utterance_box := blank_box
    speaker_encoder_box := blank_box
    emotion_encoder_box := blank_box
    synthesizer_box := blank_box
    vocoder_box := blank_box
    browser_load_button_disabled := false
    random_utterance_button_disabled := false
    random_speaker_button_disabled := false
    random_dataset_button_disabled := false
    auto_next_checkbox_disabled := false
    play_button_disabled := false
    generate_button_disabled := false
    synthesize_button_disabled := false
    vocode_button_disabled := false
    replay_wav_button_disabled := false
    export_wav_button_disabled := false
    record_button_disabled := false }

/-- The state right after UI.init, which ends by calling reset_interface. -/
def init_state : UIState S E := (reset_interface blank_state).1

/-- The operations of the UI that touch the modelled state, each carrying
the external inputs (dialog results, filesystem contents, device lists,
reducers) it consumes. -/
inductive Op (S E P Q W : Type) where
  | log (line : List Char) (mode : LogMode)
  | register_utterance (u : Utterance S E)
  | draw_umap_projections (utterances : List (Utterance S E))
    (reducer1 : List E → List P) (reducer2 : List (Option E) → List Q)
  | reset_interface
  | populate_browser (fs : Filesystem) (datasets_root : Option String)
    (recognized_datasets : List String) (level : Int) (random : Bool) (k1 k2 k3 : Nat)
  | populate_models (models_dir : String) (spk emo syn voc : List (List String))
  | save_audio_file (dialog_fpath : String) (wav : W)
  | play (ok : Bool)
  | stop
  | record_one (duration : Nat) (ok : Bool)
  | setup_audio_devices (input_devices output_devices : List String)

/-- One UI operation applied to a state; the Nat counts how many times
the first-time UMAP message was logged by the operation. A raised
exception leaves the modelled state as mutated before the raise. -/
def step {P Q W : Type} (op : Op S E P Q W) (st : UIState S E) : UIState S E × Nat :=
  match op with
  | .log line mode => ({ st with logs := (log st.logs line mode).getD st.logs }, 0)
  | .register_utterance u => (register_utterance st u, 0)
  | .draw_umap_projections utts r1 r2 =>
    let b := draw_umap_projections st utts r1 r2
    (b.1, b.2.2)
  | .reset_interface => reset_interface st
  | .populate_browser fs root recog level random k1 k2 k3 =>
    ((populate_browser st fs root recog level random k1 k2 k3).getD st, 0)
  | .populate_models mdir spk emo syn voc => ((populate_models st mdir spk emo syn voc).1, 0)
  | .save_audio_file p w => ((save_audio_file st p w).1, 0)
  | .play ok => (play st ok, 0)
  | .stop => (st, 0)
  | .record_one d ok => (record_one st d ok, 0)
  | .setup_audio_devices ins outs => (setup_audio_devices st ins outs, 0)

/-- A session: a sequence of operations run from a state, together with
the total number of first-time UMAP messages logged. -/
def run {P Q W : Type} : UIState S E → List (Op S E P Q W) → UIState S E × Nat
  | st, [] => (st, 0)
  | st, op :: ops =>
    let s1 := step op st
    let s2 := run s1.1 ops
    (s2.1, s1.2 + s2.2)

/-- A concrete utterance over trivial payload types, used by witnesses. -/
def test_utterance : Utterance Unit Unit :=
  { name := "u", speaker_name := "s", spec := (), speaker_embed := (),
    emotion_embed := none }

/-- A concrete state whose utterance history holds exactly
max_saved_utterances entries, used by witnesses. -/
def full_history_state : UIState Unit Unit :=
  { (blank_state : UIState Unit Unit) with utterance_history :=
      { items := List.replicate max_saved_utterances ("v", some test_utterance)
        currentIndex := 0
        disabled := false } }

/-- A concrete one-dataset filesystem, used by witnesses. -/
def test_fs : Filesystem :=
  { dataset_exists := fun _ => true
    speakers_of := fun _ => ["s1"]
    utterances_of := fun _ _ => ["u1"] }

theorem push_trim_length_le (logs : List (List Char)) (e : List Char)
    (h : logs.length ≤ max_log_lines) : (push_trim logs e).length ≤ max_log_lines := by
  simp only [push_trim, max_log_lines] at *
  split <;> rename_i hc <;>
    simp only [List.length_tail, List.length_append, List.length_cons,
      List.length_nil] at hc ⊢ <;> omega

theorem foldl_push_trim_length_le {β : Type} (g : β → List Char) :
    ∀ (xs : List β) (logs : List (List Char)), logs.length ≤ max_log_lines →
      (xs.foldl (fun lgs b => push_trim lgs (g b)) logs).length ≤ max_log_lines := by
  intro xs
  induction xs with
  | nil => intro logs h; simpa using h
  | cons x xs ih =>
    intro logs h
    simpa using ih (push_trim logs (g x)) (push_trim_length_le logs (g x) h)

theorem lognewline_length_le (logs : List (List Char)) (line : List Char)
    (h : logs.length ≤ max_log_lines) : (lognewline logs line).length ≤ max_log_lines := by
  unfold lognewline
  split
  · exact push_trim_length_le _ _ (foldl_push_trim_length_le _ _ _ h)
  · exact push_trim_length_le _ _ h

theorem push_trim_full (logs : List (List Char)) (e : List Char)
    (h : logs.length = max_log_lines) : push_trim logs e = logs.tail ++ [e] := by
  unfold push_trim
  have hne : logs ≠ [] := by
    intro hnil; rw [hnil] at h; simp [max_log_lines] at h
  have hlen : max_log_lines < (logs ++ [e]).length := by
    simp [h]
  rw [if_pos hlen]
  cases logs with
  | nil => exact absurd rfl hne
  | cons a t => simp

/-- Claim C2: in every mode, a log buffer holding at most max_log_lines
entries before the call holds at most max_log_lines entries after the
call; and pushing a line of at most max_log_width characters in newline
mode onto a buffer of exactly max_log_lines entries evicts exactly the
oldest entry and appends the new line at the end. -/
theorem log_bounded_and_evicts_oldest (logs : List (List Char)) (line : List Char)
    (mode : LogMode) :
    (∀ logs2, log logs line mode = some logs2 →
      logs.length ≤ max_log_lines → logs2.length ≤ max_log_lines)
    ∧ (line.length ≤ max_log_width → logs.length = max_log_lines →
        log logs line LogMode.newline = some (logs.tail ++ [line])) := by
  constructor
  · intro logs2 hsome hle
    cases mode with
    | newline =>
      simp only [log] at hsome
      cases hsome
      exact lognewline_length_le logs line hle
    | append =>
      simp only [log] at hsome
      cases hlast : logs.getLast? with
      | none => rw [hlast] at hsome; cases hsome
      | some last =>
        rw [hlast] at hsome
        cases hsome
        simpa using hle
    | overwrite =>
      simp only [log] at hsome
      cases hlast : logs.getLast? with
      | none => rw [hlast] at hsome; cases hsome
      | some last =>
        rw [hlast] at hsome
        cases hsome
        simpa using hle
  · intro hshort hfull
    simp only [log, lognewline]
    rw [if_neg (by omega)]
    rw [push_trim_full logs line hfull]

/-- Witness for C2 at a concrete buffer of five lines and a short line. -/
theorem log_bounded_and_evicts_oldest_witness :
    (log [['a'], ['b'], ['c'], ['d'], ['e']] ['f'] LogMode.newline
        = some [['b'], ['c'], ['d'], ['e'], ['f']])
    ∧ ([['a'], ['b'], ['c'], ['d'], ['e']] : List (List Char)).length ≤ max_log_lines := by
  constructor
  · have h := (log_bounded_and_evicts_oldest [['a'], ['b'], ['c'], ['d'], ['e']] ['f']
      LogMode.newline).2 (by decide) (by decide)
    simpa using h
  · decide

theorem list_set_last {α : Type} (l : List α) (x : α) (h : l ≠ []) :
    l.set (l.length - 1) x = l.dropLast ++ [x] := by
  induction l with
  | nil => exact absurd rfl h
  | cons a t ih =>
    cases t with
    | nil => simp
    | cons b u =>
      have ht : (b :: u) ≠ [] := by simp
      have ih2 := ih ht
      simp only [List.length_cons, Nat.add_sub_cancel] at ih2 ⊢
      have hstep : (a :: b :: u).set (u.length + 1) x = a :: (b :: u).set u.length x := rfl
      rw [hstep, ih2]
      simp

/-- Claim C3: on a non-empty log buffer, append mode replaces the last
entry by its previous value concatenated with the new line, and overwrite
mode replaces the last entry by the new line; in both modes every other
entry, and hence the buffer length, is unchanged. -/
theorem log_append_overwrite_last (logs : List (List Char)) (line : List Char)
    (h : logs ≠ []) :
    log logs line LogMode.append = some (logs.dropLast ++ [logs.getLast h ++ line])
    ∧ log logs line LogMode.overwrite = some (logs.dropLast ++ [line]) := by
  have hlast : logs.getLast? = some (logs.getLast h) := List.getLast?_eq_getLast logs h
  constructor
  · simp only [log, hlast]
    rw [list_set_last logs _ h]
  · simp only [log, hlast]
    rw [list_set_last logs _ h]

/-- Witness for C3 at a concrete two-entry buffer. -/
theorem log_append_overwrite_last_witness :
    log [['a'], ['b']] ['c'] LogMode.append = some [['a'], ['b', 'c']]
    ∧ log [['a'], ['b']] ['c'] LogMode.overwrite = some [['a'], ['c']] := by
  have h := log_append_overwrite_last [['a'], ['b']] ['c'] (by decide)
  exact ⟨by simpa using h.1, by simpa using h.2⟩

/-- Claim C1 as stated is false on the code: wrapping the 101-character
line of all letters a appends the first 100 characters and then the LAST
TWO characters (slice line[-res-1:] instead of line[-res:]), so the
concatenation of the appended entries has 102 characters and duplicates
the character at index 99. -/
theorem log_newline_wrap_duplicates_character :
    log [] (List.replicate 101 'a') LogMode.newline
      = some [List.replicate 100 'a', List.replicate 2 'a']
    ∧ wrapped_entries (List.replicate 101 'a')
      = [List.replicate 100 'a', List.replicate 2 'a']
    ∧ (List.replicate 100 'a' ++ List.replicate 2 'a' : List Char)
      ≠ List.replicate 101 'a' := by
  refine ⟨by decide, by decide, by decide⟩

theorem list_eraseIdx_last {α : Type} : ∀ (l : List α), l.eraseIdx (l.length - 1) = l.dropLast
  | [] => rfl
  | [_] => rfl
  | a :: b :: u => by
    have ih := list_eraseIdx_last (b :: u)
    simp only [List.length_cons, Nat.add_sub_cancel] at ih ⊢
    rw [show (a :: b :: u).eraseIdx (u.length + 1) = a :: (b :: u).eraseIdx u.length from rfl]
    rw [ih]
    simp

/-- Claim C4: register_utterance puts the new utterance at the front of
the history, a history of at most max_saved_utterances entries stays
within that bound, and a full history loses exactly its back entry, the
rest being preserved in order. -/
theorem register_utterance_mru (st : UIState S E) (u : Utterance S E) :
    (register_utterance st u).utterance_history.items.head? = some (u.name, some u)
    ∧ (st.utterance_history.items.length ≤ max_saved_utterances →
        (register_utterance st u).utterance_history.items.length ≤ max_saved_utterances)
    ∧ (st.utterance_history.items.length = max_saved_utterances →
        (register_utterance st u).utterance_history.items
          = (u.name, some u) :: st.utterance_history.items.dropLast) := by
  simp only [register_utterance]
  refine ⟨?_, ?_, ?_⟩
  · by_cases hc : max_saved_utterances
        < ((u.name, some u) :: st.utterance_history.items).length
    · rw [if_pos hc]
      rfl
    · rw [if_neg hc]
      rfl
  · intro h
    by_cases hc : max_saved_utterances
        < ((u.name, some u) :: st.utterance_history.items).length
    · rw [if_pos hc]
      show (((u.name, some u) :: st.utterance_history.items).eraseIdx
        max_saved_utterances).length ≤ max_saved_utterances
      rw [List.length_eraseIdx_of_lt hc]
      simp only [List.length_cons]
      omega
    · rw [if_neg hc]
      show ((u.name, some u) :: st.utterance_history.items).length ≤ max_saved_utterances
      simp only [List.length_cons] at hc ⊢
      omega
  · intro h
    have hc : max_saved_utterances
        < ((u.name, some u) :: st.utterance_history.items).length := by
      simp [h]
    rw [if_pos hc]
    rw [show ((u.name, some u) :: st.utterance_history.items).eraseIdx max_saved_utterances
        = (u.name, some u)
          :: st.utterance_history.items.eraseIdx (max_saved_utterances - 1) from rfl]
    rw [show max_saved_utterances - 1 = st.utterance_history.items.length - 1 by
      rw [h]]
    rw [list_eraseIdx_last]

/-- Witness for C4 at a history of exactly max_saved_utterances entries. -/
theorem register_utterance_mru_witness :
    (register_utterance (full_history_state) test_utterance).utterance_history.items
      = (test_utterance.name, some test_utterance)
        :: (full_history_state).utterance_history.items.dropLast
    ∧ (register_utterance (full_history_state) test_utterance).utterance_history.items.length
      ≤ max_saved_utterances := by
  constructor
  · exact (register_utterance_mru full_history_state test_utterance).2.2 (by decide)
  · exact (register_utterance_mru full_history_state test_utterance).2.1 (by decide)

/-- Claim C5: immediately after register_utterance, the selected_utterance
property reads back exactly the registered utterance, all its fields
included. -/
theorem selected_utterance_after_register (st : UIState S E) (u : Utterance S E) :
    selected_utterance (register_utterance st u) = some u := by
  simp only [selected_utterance, register_utterance, ComboBox.itemData]
  by_cases hc : max_saved_utterances
      < ((u.name, some u) :: st.utterance_history.items).length
  · rw [if_pos hc]
    rw [show ((u.name, some u) :: st.utterance_history.items).eraseIdx max_saved_utterances
        = (u.name, some u)
          :: st.utterance_history.items.eraseIdx (max_saved_utterances - 1) from rfl]
    simp
  · rw [if_neg hc]
    simp

/-- Claim C8: save_audio_file writes exactly when the dialog returns a
non-empty path; a path without suffix gets .wav appended before writing;
a path with a suffix is written as chosen; a cancelled dialog writes
nothing and changes no state, and indeed no call changes the state. -/
theorem save_audio_file_spec {W : Type} (st : UIState S E) (p : String) (w : W) :
    (save_audio_file st p w).1 = st
    ∧ ((save_audio_file st p w).2 ≠ none ↔ p ≠ "")
    ∧ (p ≠ "" → path_suffix p = "" → (save_audio_file st p w).2 = some (p ++ ".wav", w))
    ∧ (p ≠ "" → path_suffix p ≠ "" → (save_audio_file st p w).2 = some (p, w))
    ∧ (p = "" → save_audio_file st p w = (st, none)) := by
  by_cases hp : p = ""
  · subst hp
    simp [save_audio_file]
  · by_cases hs : path_suffix p = ""
    · simp [save_audio_file, hp, hs]
    · simp [save_audio_file, hp, hs]

/-- Witness for C8 at a suffix-free path, a suffixed path and a cancelled
dialog. -/
theorem save_audio_file_spec_witness :
    (save_audio_file (blank_state : UIState Unit Unit) "out" (0 : Nat)).2
      = some ("out.wav", 0)
    ∧ (save_audio_file (blank_state : UIState Unit Unit) "a.flac" (0 : Nat)).2
      = some ("a.flac", 0)
    ∧ save_audio_file (blank_state : UIState Unit Unit) "" (0 : Nat)
      = (blank_state, none) := by
  refine ⟨?_, ?_, ?_⟩
  · exact (save_audio_file_spec (blank_state : UIState Unit Unit) "out" (0 : Nat)).2.2.1
      (by decide) (by decide)
  · exact (save_audio_file_spec (blank_state : UIState Unit Unit) "a.flac" (0 : Nat)).2.2.2.1
      (by decide) (by decide)
  · exact (save_audio_file_spec (blank_state : UIState Unit Unit) "" (0 : Nat)).2.2.2.2 rfl

/-- Claim C9: populate_models raises exactly when the speaker encoder,
emotion encoder or synthesizer glob is empty; on success the vocoder box
ends with the Griffin-Lim entry carrying no path, hence is non-empty, and
an empty vocoder glob does not raise. -/
theorem populate_models_spec (st : UIState S E) (mdir : String)
    (spk emo syn voc : List (List String)) :
    ((populate_models st mdir spk emo syn voc).2 ≠ none ↔ (spk = [] ∨ emo = [] ∨ syn = []))
    ∧ ((populate_models st mdir spk emo syn voc).2 = none →
        (populate_models st mdir spk emo syn voc).1.vocoder_box.items.getLast?
          = some ("Griffin-Lim", none)
        ∧ (populate_models st mdir spk emo syn voc).1.vocoder_box.items ≠ []) := by
  by_cases h1 : spk.length = 0
  · have e1 : spk = [] := List.length_eq_zero.mp h1
    simp [populate_models, h1, e1]
  · have n1 : spk ≠ [] := fun h => h1 (by simp [h])
    by_cases h2 : emo.length = 0
    · have e2 : emo = [] := List.length_eq_zero.mp h2
      simp [populate_models, h1, h2, e2]
    · have n2 : emo ≠ [] := fun h => h2 (by simp [h])
      by_cases h3 : syn.length = 0
      · have e3 : syn = [] := List.length_eq_zero.mp h3
        simp [populate_models, h1, h2, h3, e3]
      · have n3 : syn ≠ [] := fun h => h3 (by simp [h])
        simp [populate_models, h1, h2, h3, n1, n2, n3, repopulate_box,
          List.getLast?_concat]

/-- Witness for C9: with every glob inhabited, no exception and the
Griffin-Lim entry closes the vocoder box. -/
theorem populate_models_spec_witness :
    ((populate_models (blank_state : UIState Unit Unit) "m"
        [["r", "encoder.pt"]] [["r", "e", "x.hdf5"]] [["r", "synthesizer.pt"]] []).2 = none →
      ((populate_models (blank_state : UIState Unit Unit) "m"
        [["r", "encoder.pt"]] [["r", "e", "x.hdf5"]]
        [["r", "synthesizer.pt"]] []).1.vocoder_box.items.getLast?
          = some ("Griffin-Lim", none)))
    ∧ (populate_models (blank_state : UIState Unit Unit) "m"
        [["r", "encoder.pt"]] [["r", "e", "x.hdf5"]] [["r", "synthesizer.pt"]] []).2 = none := by
  constructor
  · intro h
    exact ((populate_models_spec (blank_state : UIState Unit Unit) "m"
      [["r", "encoder.pt"]] [["r", "e", "x.hdf5"]] [["r", "synthesizer.pt"]] []).2 h).1
  · decide

/-- Claim C10: with fewer than min_umap_points utterances,
draw_umap_projections changes nothing (in particular umap_hot), computes
no projection and renders the add-more-points text with the missing count
on both axes; with at least min_umap_points utterances and
length-preserving reducers it scatters exactly one point per utterance on
each axis. -/
theorem draw_umap_projections_points {P Q : Type} (st : UIState S E)
    (utts : List (Utterance S E)) (r1 : List E → List P) (r2 : List (Option E) → List Q) :
    (utts.length < min_umap_points →
      draw_umap_projections st utts r1 r2
        = (st, (AxisRender.add_points_msg (min_umap_points - utts.length),
                AxisRender.add_points_msg (min_umap_points - utts.length)), 0))
    ∧ (min_umap_points ≤ utts.length →
        (r1 (utts.map (fun u => u.speaker_embed))).length = utts.length →
        (r2 (utts.map (fun u => u.emotion_embed))).length = utts.length →
        (draw_umap_projections st utts r1 r2).2.1
          = (AxisRender.scatter utts.length, AxisRender.scatter utts.length)) := by
  constructor
  · intro h
    simp [draw_umap_projections, draw_umap_block, h]
  · intro h hr1 hr2
    have hn : ¬ utts.length < min_umap_points := Nat.not_lt.mpr h
    by_cases hh : st.umap_hot = false
    · simp [draw_umap_projections, draw_umap_block, hn, hh, hr1, hr2]
    · simp [draw_umap_projections, draw_umap_block, hn, hh, hr1, hr2]

/-- Witness for C10 at the empty utterance set and at four utterances
with identity reducers. -/
theorem draw_umap_projections_points_witness :
    draw_umap_projections (blank_state : UIState Unit Unit) [] (fun l => l) (fun l => l)
      = (blank_state, (AxisRender.add_points_msg 4, AxisRender.add_points_msg 4), 0)
    ∧ (draw_umap_projections (blank_state : UIState Unit Unit)
        [test_utterance, test_utterance, test_utterance, test_utterance]
        (fun l => l) (fun l => l)).2.1
      = (AxisRender.scatter 4, AxisRender.scatter 4) := by
  constructor
  · exact (draw_umap_projections_points (blank_state : UIState Unit Unit) []
      (fun l => l) (fun l => l)).1 (by decide)
  · exact (draw_umap_projections_points (blank_state : UIState Unit Unit)
      [test_utterance, test_utterance, test_utterance, test_utterance]
      (fun l => l) (fun l => l)).2 (by decide) (by simp) (by simp)

/-- Claim C7: with a usable root, populate_browser at level <= 0
repopulates the dataset box and then cascades through the speaker and
utterance boxes; at level 1 it repopulates the speaker and utterance
boxes from the selected dataset, the dataset box staying unchanged; at
level 2 it repopulates only the utterance box, the dataset and speaker
boxes staying unchanged. -/
theorem populate_browser_levels (st : UIState S E) (fs : Filesystem) (root : String)
    (recognized_datasets : List String) (level : Int) (random : Bool) (k1 k2 k3 : Nat) :
    (level ≤ 0 → (recognized_datasets.filter fs.dataset_exists).isEmpty = false →
      populate_browser st fs (some root) recognized_datasets level random k1 k2 k3
        = some (populate_utterances_box (populate_speakers
            { st with
              browser_load_button_disabled := false
              dataset_box := (repopulate_box st.dataset_box
                ((recognized_datasets.filter fs.dataset_exists).map (fun d => (d, none)))
                random k1) } fs random k2) fs random k3))
    ∧ (level = 1 →
        populate_browser st fs (some root) recognized_datasets level random k1 k2 k3
          = some (populate_utterances_box (populate_speakers st fs random k2) fs random k3)
        ∧ (populate_utterances_box (populate_speakers st fs random k2) fs random k3).dataset_box
          = st.dataset_box)
    ∧ (level = 2 →
        populate_browser st fs (some root) recognized_datasets level random k1 k2 k3
          = some (populate_utterances_box st fs random k3)
        ∧ (populate_utterances_box st fs random k3).dataset_box = st.dataset_box
        ∧ (populate_utterances_box st fs random k3).speaker_box = st.speaker_box) := by
  refine ⟨?_, ?_, ?_⟩
  · intro hl he
    simp only [populate_browser, if_pos hl]
    simp [he]
  · intro hl
    subst hl
    refine ⟨?_, ?_⟩
    · simp only [populate_browser]
      rw [if_neg (by omega)]
      simp
    · simp [populate_utterances_box, populate_speakers]
  · intro hl
    subst hl
    refine ⟨?_, ?_, ?_⟩
    · simp only [populate_browser]
      rw [if_neg (by omega)]
      rw [if_neg (by simp), if_neg (by omega)]
      simp
    · simp [populate_utterances_box]
    · simp [populate_utterances_box]

/-- Witness for C7 at levels 0, 1 and 2 on a one-dataset filesystem. -/
theorem populate_browser_levels_witness :
    populate_browser (blank_state : UIState Unit Unit) test_fs (some "r") ["d1"] 1 false 0 0 0
      = some (populate_utterances_box (populate_speakers blank_state test_fs false 0)
          test_fs false 0)
    ∧ populate_browser (blank_state : UIState Unit Unit) test_fs (some "r") ["d1"] 2 false 0 0 0
      = some (populate_utterances_box blank_state test_fs false 0)
    ∧ populate_browser (blank_state : UIState Unit Unit) test_fs (some "r") ["d1"] 0 false 0 0 0
      = some (populate_utterances_box (populate_speakers
          { (blank_state : UIState Unit Unit) with
            browser_load_button_disabled := false
            dataset_box := (repopulate_box (blank_state : UIState Unit Unit).dataset_box
              ((["d1"].filter test_fs.dataset_exists).map (fun d => (d, none))) false 0) }
          test_fs false 0) test_fs false 0) := by
  refine ⟨?_, ?_, ?_⟩
  · exact ((populate_browser_levels (blank_state : UIState Unit Unit) test_fs "r" ["d1"]
      1 false 0 0 0).2.1 rfl).1
  · exact ((populate_browser_levels (blank_state : UIState Unit Unit) test_fs "r" ["d1"]
      2 false 0 0 0).2.2 rfl).1
  · exact (populate_browser_levels (blank_state : UIState Unit Unit) test_fs "r" ["d1"]
      0 false 0 0 0).1 (by decide) (by decide)

theorem draw_umap_block_hot {α P : Type} (st : UIState S E) (utts : List (Utterance S E))
    (embeds : List α) (r : List α → List P) :
    (draw_umap_block st utts embeds r).1.umap_hot
      = (st.umap_hot || decide (min_umap_points ≤ utts.length)) := by
  simp only [draw_umap_block]
  split
  · rename_i h
    have hn : ¬ min_umap_points ≤ utts.length := Nat.not_le.mpr h
    simp [hn]
  · rename_i h
    have hle : min_umap_points ≤ utts.length := Nat.not_lt.mp h
    by_cases hh : st.umap_hot = false
    · simp [hh, hle]
    · simp [hh, hle]

theorem draw_umap_block_emit {α P : Type} (st : UIState S E) (utts : List (Utterance S E))
    (embeds : List α) (r : List α → List P) :
    (draw_umap_block st utts embeds r).2.2
      = (!st.umap_hot && decide (min_umap_points ≤ utts.length)) := by
  simp only [draw_umap_block]
  split
  · rename_i h
    have hn : ¬ min_umap_points ≤ utts.length := Nat.not_le.mpr h
    simp [hn]
  · rename_i h
    have hle : min_umap_points ≤ utts.length := Nat.not_lt.mp h
    by_cases hh : st.umap_hot = false
    · simp [hh, hle]
    · simp [hh, hle]

theorem draw_umap_projections_hot {P Q : Type} (st : UIState S E)
    (utts : List (Utterance S E)) (r1 : List E → List P) (r2 : List (Option E) → List Q) :
    (draw_umap_projections st utts r1 r2).1.umap_hot
      = (st.umap_hot || decide (min_umap_points ≤ utts.length)) := by
  simp only [draw_umap_projections]
  rw [draw_umap_block_hot, draw_umap_block_hot]
  rw [Bool.or_assoc, Bool.or_self]

theorem draw_umap_projections_count {P Q : Type} (st : UIState S E)
    (utts : List (Utterance S E)) (r1 : List E → List P) (r2 : List (Option E) → List Q) :
    (draw_umap_projections st utts r1 r2).2.2
      = (if st.umap_hot = false ∧ min_umap_points ≤ utts.length then 1 else 0) := by
  simp only [draw_umap_projections]
  rw [draw_umap_block_emit, draw_umap_block_emit, draw_umap_block_hot]
  by_cases hl : min_umap_points ≤ utts.length
  · by_cases hh : st.umap_hot = false
    · simp [hh, hl]
    · simp [hh, hl]
  · simp [hl]

theorem log_blank_lines_hot : ∀ (n : Nat) (st : UIState S E),
    (log_blank_lines n st).umap_hot = st.umap_hot := by
  intro n
  induction n with
  | zero => intro st; rfl
  | succ n ih => intro st; exact ih _

theorem reset_interface_hot (st : UIState S E) :
    (reset_interface st).1.umap_hot = st.umap_hot := by
  show (log_blank_lines max_log_lines _).umap_hot = st.umap_hot
  rw [log_blank_lines_hot]
  show (draw_umap_projections { st with vocode_button_disabled := true }
    ([] : List (Utterance S E)) (fun _ => ([] : List PUnit))
    (fun _ => ([] : List PUnit))).1.umap_hot = st.umap_hot
  rw [draw_umap_projections_hot]
  simp [min_umap_points]

theorem reset_interface_count (st : UIState S E) : (reset_interface st).2 = 0 := by
  show (draw_umap_projections { st with vocode_button_disabled := true }
    ([] : List (Utterance S E)) (fun _ => ([] : List PUnit))
    (fun _ => ([] : List PUnit))).2.2 = 0
  rw [draw_umap_projections_count]
  simp [min_umap_points]

theorem populate_browser_hot (st : UIState S E) (fs : Filesystem)
    (root : Option String) (recog : List String) (level : Int) (random : Bool)
    (k1 k2 k3 : Nat) :
    ((populate_browser st fs root recog level random k1 k2 k3).getD st).umap_hot
      = st.umap_hot := by
  simp only [populate_browser]
  split
  · split
    · split <;> rfl
    · split <;> rfl
  · split
    · rfl
    · split
      · rfl
      · split
        · rfl
        · rfl

theorem populate_models_hot (st : UIState S E) (mdir : String)
    (spk emo syn voc : List (List String)) :
    ((populate_models st mdir spk emo syn voc).1).umap_hot = st.umap_hot := by
  simp only [populate_models]
  split
  · rfl
  · split
    · rfl
    · split
      · rfl
      · rfl

theorem save_audio_file_state {W : Type} (st : UIState S E) (p : String) (w : W) :
    (save_audio_file st p w).1 = st := by
  by_cases hp : p = "" <;> simp [save_audio_file, hp]

theorem play_hot (st : UIState S E) (ok : Bool) : (play st ok).umap_hot = st.umap_hot := by
  cases ok <;> rfl

theorem record_one_hot (st : UIState S E) (d : Nat) (ok : Bool) :
    (record_one st d ok).umap_hot = st.umap_hot := by
  cases ok <;> rfl

theorem setup_audio_devices_hot (st : UIState S E) (ins outs : List String) :
    (setup_audio_devices st ins outs).umap_hot = st.umap_hot := by
  by_cases h1 : ins.length = 0 <;> by_cases h2 : outs.length = 0 <;>
    simp [setup_audio_devices, h1, h2]

theorem step_hot_mono {P Q W : Type} (op : Op S E P Q W) (st : UIState S E)
    (h : st.umap_hot = true) : (step op st).1.umap_hot = true := by
  cases op with
  | log line mode => exact h
  | register_utterance u => exact h
  | draw_umap_projections utts r1 r2 =>
    show (draw_umap_projections st utts r1 r2).1.umap_hot = true
    rw [draw_umap_projections_hot, h]
    rfl
  | reset_interface => exact (reset_interface_hot st).trans h
  | populate_browser fs root recog level random k1 k2 k3 =>
    exact (populate_browser_hot st fs root recog level random k1 k2 k3).trans h
  | populate_models mdir spk emo syn voc =>
    exact (populate_models_hot st mdir spk emo syn voc).trans h
  | save_audio_file p w =>
    show ((save_audio_file st p w).1).umap_hot = true
    rw [save_audio_file_state]
    exact h
  | play ok => exact (play_hot st ok).trans h
  | stop => exact h
  | record_one d ok => exact (record_one_hot st d ok).trans h
  | setup_audio_devices ins outs => exact (setup_audio_devices_hot st ins outs).trans h

theorem step_count_le_one {P Q W : Type} (op : Op S E P Q W) (st : UIState S E) :
    (step op st).2 ≤ 1 := by
  cases op with
  | draw_umap_projections utts r1 r2 =>
    show (draw_umap_projections st utts r1 r2).2.2 ≤ 1
    rw [draw_umap_projections_count]
    split <;> omega
  | reset_interface =>
    show (reset_interface st).2 ≤ 1
    rw [reset_interface_count]
    omega
  | log line mode => exact Nat.zero_le 1
  | register_utterance u => exact Nat.zero_le 1
  | populate_browser fs root recog level random k1 k2 k3 => exact Nat.zero_le 1
  | populate_models mdir spk emo syn voc => exact Nat.zero_le 1
  | save_audio_file p w => exact Nat.zero_le 1
  | play ok => exact Nat.zero_le 1
  | stop => exact Nat.zero_le 1
  | record_one d ok => exact Nat.zero_le 1
  | setup_audio_devices ins outs => exact Nat.zero_le 1

theorem step_count_of_hot {P Q W : Type} (op : Op S E P Q W) (st : UIState S E)
    (h : st.umap_hot = true) : (step op st).2 = 0 := by
  cases op with
  | draw_umap_projections utts r1 r2 =>
    show (draw_umap_projections st utts r1 r2).2.2 = 0
    rw [draw_umap_projections_count]
    simp [h]
  | reset_interface => exact reset_interface_count st
  | log line mode => rfl
  | register_utterance u => rfl
  | populate_browser fs root recog level random k1 k2 k3 => rfl
  | populate_models mdir spk emo syn voc => rfl
  | save_audio_file p w => rfl
  | play ok => rfl
  | stop => rfl
  | record_one d ok => rfl
  | setup_audio_devices ins outs => rfl

theorem step_count_of_post_cold {P Q W : Type} (op : Op S E P Q W) (st : UIState S E)
    (h : (step op st).1.umap_hot = false) : (step op st).2 = 0 := by
  cases op with
  | draw_umap_projections utts r1 r2 =>
    have hh : (draw_umap_projections st utts r1 r2).1.umap_hot = false := h
    rw [draw_umap_projections_hot] at hh
    simp only [Bool.or_eq_false_iff, decide_eq_false_iff_not] at hh
    show (draw_umap_projections st utts r1 r2).2.2 = 0
    rw [draw_umap_projections_count]
    simp [hh.2]
  | reset_interface => exact reset_interface_count st
  | log line mode => rfl
  | register_utterance u => rfl
  | populate_browser fs root recog level random k1 k2 k3 => rfl
  | populate_models mdir spk emo syn voc => rfl
  | save_audio_file p w => rfl
  | play ok => rfl
  | stop => rfl
  | record_one d ok => rfl
  | setup_audio_devices ins outs => rfl

theorem run_count_invariant {P Q W : Type} :
    ∀ (ops : List (Op S E P Q W)) (st : UIState S E),
      (run st ops).2 ≤ (if st.umap_hot = true then 0 else 1) := by
  intro ops
  induction ops with
  | nil =>
    intro st
    exact Nat.zero_le _
  | cons op ops ih =>
    intro st
    show (step op st).2 + (run (step op st).1 ops).2
      ≤ (if st.umap_hot = true then 0 else 1)
    by_cases h : st.umap_hot = true
    · have h1 := step_count_of_hot op st h
      have h2 := step_hot_mono op st h
      have h3 := ih ((step op st).1)
      rw [h2, if_pos rfl] at h3
      rw [if_pos h]
      omega
    · rw [if_neg h]
      have hle := step_count_le_one op st
      by_cases h2 : (step op st).1.umap_hot = true
      · have h3 := ih ((step op st).1)
        rw [if_pos h2] at h3
        omega
      · have h4 : (step op st).1.umap_hot = false := by simpa using h2
        have h5 := step_count_of_post_cold op st h4
        have h3 := ih ((step op st).1)
        rw [if_neg h2] at h3
        omega

theorem init_state_umap_hot_false : (init_state : UIState S E).umap_hot = false := by
  show ((reset_interface blank_state).1).umap_hot = false
  rw [reset_interface_hot]
  rfl

/-- Claim C6: the umap_hot flag starts False after initialization, every
UI operation preserves it once True (reset_interface and
draw_umap_projections included), and along any session the first-time
UMAP message is logged at most once. -/
theorem umap_hot_one_shot {P Q W : Type} :
    (init_state : UIState S E).umap_hot = false
    ∧ (∀ (op : Op S E P Q W) (st : UIState S E),
        st.umap_hot = true → (step op st).1.umap_hot = true)
    ∧ (∀ ops : List (Op S E P Q W), (run (init_state : UIState S E) ops).2 ≤ 1) := by
  refine ⟨init_state_umap_hot_false, fun op st h => step_hot_mono op st h, fun ops => ?_⟩
  have h := run_count_invariant ops (init_state : UIState S E)
  rw [init_state_umap_hot_false] at h
  simpa using h

/-- Witness for C6 on a hot state and a one-operation session. -/
theorem umap_hot_one_shot_witness :
    ((step (Op.stop : Op Unit Unit Unit Unit Unit)
        { (blank_state : UIState Unit Unit) with umap_hot := true }).1).umap_hot = true
    ∧ (run (init_state : UIState Unit Unit)
        ([Op.stop] : List (Op Unit Unit Unit Unit Unit))).2 ≤ 1 := by
  constructor
  · exact umap_hot_one_shot.2.1 Op.stop
      { (blank_state : UIState Unit Unit) with umap_hot := true } rfl
  · exact umap_hot_one_shot.2.2 [Op.stop]

end UI
